import Mathlib

/-!
Verification of the `fault` test-synthesis engine (splhack/fault).

The repository has two Python source files:
* `fault/__init__.py` — the analysis-and-rewrite engine: annotation
  collection (`CollectTypes` / `collect_types`), the body rewriter
  (`CoreIRSimulatorRewrite`), the adapter (`FaultSimulator`) and the
  synthesis driver (`test_case`).
* `fault/subprocess_run.py` — the subprocess execution utility
  (`resolve_env`, `subprocess_run`, `subprocess_run_batch`).

This file gives a shallow embedding of those functions and proves the
frozen claims about them.
-/

/-! ## Python AST fragment

The statement/expression fragment that the rewriter
(`CoreIRSimulatorRewrite`, an `ast.NodeTransformer`) operates on:
names, integer and string literals, attribute access and calls, plus
assignment and expression statements.  Field names mirror the Python
`ast` node fields (`value`/` attr` for `Attribute`, `func`/`args` for
`Call`, `targets`/`value` for `Assign`).
-/

inductive Expr where
  | name (id : String)
  | num (n : Int)
  | strE (s : String)
  | attributeE (value : Expr) (a : String)
  | call (func : Expr) (args : List Expr)

inductive Stmt where
  | assign (targets : List Expr) (value : Expr)
  | exprS (value : Expr)

/-! ## Body Rewriter (`CoreIRSimulatorRewrite`)

`CoreIRSimulatorRewrite` is an `ast.NodeTransformer` constructed with the
adapter binding name `sim_object`.  `visit_FunctionDef` maps `visit` over
the body statements.  `visit` dispatches:

* `visit_Assign` takes `node.targets[0].attr` and returns the parsed
  statement `"{sim_object}.set_value('{target}', {source of node.value},
  Scope())"`.  It never visits its children: the value expression is
  serialized verbatim (`astor.to_source`) and re-parsed unchanged, and
  extra targets beyond `targets[0]` are dropped.  If `targets[0]` is not
  an `Attribute` node the `.attr` access raises (modelled as `none`); so
  does `targets[0]` on an empty target list.
* `visit_Attribute` renames the field to `"evaluate"` when it is
  `"eval"` (returning the node, children unvisited), and otherwise
  returns the parsed expression `"{sim_object}.get_value('{attr}',
  Scope())"`: the whole attribute node, object included, is replaced.
* every other node has no visitor, so `generic_visit` recurses into the
  children and replaces each child by its rewrite.

`ast.parse` of the generated source is modelled by constructing the
corresponding tree directly, and `ast.parse(astor.to_source(e))` is
taken to round-trip to `e`.
-/

def mkGetValue (sim a : String) : Expr :=
  .call (.attributeE (.name sim) "get_value")
    [.strE a, .call (.name "Scope") []]

def mkSetValue (sim target : String) (value : Expr) : Expr :=
  .call (.attributeE (.name sim) "set_value")
    [.strE target, value, .call (.name "Scope") []]

mutual

def rewriteExpr (sim : String) : Expr → Expr
  | .name i => .name i
  | .num n => .num n
  | .strE s => .strE s
  | .attributeE v a =>
      if a = "eval" then .attributeE v "evaluate" else mkGetValue sim a
  | .call f args => .call (rewriteExpr sim f) (rewriteExprList sim args)

def rewriteExprList (sim : String) : List Expr → List Expr
  | [] => []
  | e :: es => rewriteExpr sim e :: rewriteExprList sim es

end

def rewriteStmt (sim : String) : Stmt → Option Stmt
  | .assign targets value =>
      match targets with
      | [] => none
      | t :: _ =>
          match t with
          | .attributeE _ a => some (.exprS (mkSetValue sim a value))
          | _ => none
  | .exprS e => some (.exprS (rewriteExpr sim e))

def rewriteBody (sim : String) : List Stmt → Option (List Stmt)
  | [] => some []
  | s :: ss => do
      let s' ← rewriteStmt sim s
      let ss' ← rewriteBody sim ss
      pure (s' :: ss')

/-! ## Runtime semantics of the rewritten body

`FaultSimulator` (the Simulation Handle Adapter, `fault/__init__.py`
lines 88-100) exposes `evaluate()`, `set_value(port, value, scope)` and
`get_value(port, scope)`, each a thin delegation to the external
`CoreIRSimulator` after looking the port up on the circuit.  The
external simulator is modelled as an oracle giving the value returned
by `get_value` for each port, and execution produces the trace of
simulator calls.  `Scope()` (from `magma.scope`) constructs an opaque
fresh scope token.
-/

inductive Value where
  | intV (n : Int)
  | strV (s : String)
  | noneV
  | adapterV
  | methodV (m : String)
  | scopeV
  | scopeCls
deriving DecidableEq, Repr

inductive Event where
  | getV (port : String)
  | setV (port : String) (v : Value)
  | evalE
deriving DecidableEq, Repr

/-- The external simulator, as the oracle of values that
`FaultSimulator.get_value` returns per port. -/
structure SimOracle where
  get : String → Value

/-- Python attribute lookup on a runtime value: the adapter exposes
exactly its three methods; every other lookup raises. -/
def getattrV : Value → String → Option Value
  | .adapterV, "evaluate" => some (.methodV "evaluate")
  | .adapterV, "get_value" => some (.methodV "get_value")
  | .adapterV, "set_value" => some (.methodV "set_value")
  | _, _ => none

/-- Calling a runtime value: the adapter's three bound methods
(`FaultSimulator.evaluate/get_value/set_value`) and the `Scope`
constructor.  Each adapter method delegates to the simulator, which is
recorded as an event. -/
def applyCall (σ : SimOracle) : Value → List Value → Option (Value × List Event)
  | .methodV "evaluate", [] => some (.noneV, [.evalE])
  | .methodV "get_value", [.strV p, .scopeV] => some (σ.get p, [.getV p])
  | .methodV "set_value", [.strV p, v, .scopeV] => some (.noneV, [.setV p v])
  | .scopeCls, [] => some (.scopeV, [])
  | _, _ => none

mutual

def evalExpr (σ : SimOracle) (env : String → Option Value) : Expr → Option (Value × List Event)
  | .name i => (env i).map (fun v => (v, []))
  | .num n => some (.intV n, [])
  | .strE s => some (.strV s, [])
  | .attributeE e a =>
      match evalExpr σ env e with
      | some (v, ev) => (getattrV v a).map (fun m => (m, ev))
      | none => none
  | .call f args =>
      match evalExpr σ env f with
      | some (fv, ev1) =>
          match evalArgs σ env args with
          | some (vs, ev2) =>
              (applyCall σ fv vs).map (fun r => (r.1, ev1 ++ ev2 ++ r.2))
          | none => none
      | none => none

def evalArgs (σ : SimOracle) (env : String → Option Value) : List Expr → Option (List Value × List Event)
  | [] => some ([], [])
  | e :: es =>
      match evalExpr σ env e with
      | some (v, ev) =>
          match evalArgs σ env es with
          | some (vs, evs) => some (v :: vs, ev ++ evs)
          | none => none
      | none => none

end

/-- Executing one statement of the rewritten body, observed as the trace
of simulator calls.  A raw attribute assignment never occurs in a
rewritten body (every `Assign` is rewritten into a `set_value` call
statement); executing one is outside the modelled protocol. -/
def execStmt (σ : SimOracle) (env : String → Option Value) : Stmt → Option (List Event)
  | .exprS e => (evalExpr σ env e).map (fun r => r.2)
  | .assign _ _ => none

/-! ## Type Annotation Resolver (`CollectTypes` / `collect_types`)

`CollectTypes.visit_FunctionDef` iterates over the function's direct
parameters in declaration order and, for each, evaluates the compiled
annot expression in the defining environment
(`eval(compile(ast.Expression(arg.annotation), ...), defn_globals,
defn_locals)`), storing the result in `type_table[arg.arg]`.  There is
no try/except anywhere: an evaluation failure propagates the raw Python
exception out of `collect_types` unchanged.

Python values relevant to the synthesizer: the `Random` class, a
`Random(width)` instance, a magma circuit, and plain integers standing
for any other value.
-/

inductive PyVal where
  | randomCls
  | randomDesc (width : Nat)
  | circuitV (nm : String)
  | natV (n : Nat)
deriving DecidableEq, Repr

inductive PyErr where
  | nameError (id : String)
  | typeError
deriving DecidableEq, Repr

/-- Annot expressions: a name, an integer literal, or a call (enough
for `Random(4)` and the circuit-handle annotations the engine uses). -/
inductive Annot where
  | nameRef (id : String)
  | numA (n : Nat)
  | callA (f : Annot) (arg : Annot)
deriving DecidableEq, Repr

def evalAnnot (env : String → Option PyVal) : Annot → Except PyErr PyVal
  | .nameRef s =>
      match env s with
      | some v => .ok v
      | none => .error (.nameError s)
  | .numA n => .ok (.natV n)
  | .callA f a => do
      let fv ← evalAnnot env f
      let av ← evalAnnot env a
      match fv, av with
      | .randomCls, .natV w => .ok (.randomDesc w)
      | _, _ => .error .typeError

/-- `collect_types`: resolve each parameter's annot in order; the first
raised exception aborts the traversal and propagates as-is. -/
def collect_types (env : String → Option PyVal) :
    List (String × Annot) → Except PyErr (List (String × PyVal))
  | [] => .ok []
  | (k, a) :: rest => do
      let v ← evalAnnot env a
      let t ← collect_types env rest
      .ok ((k, v) :: t)

/-! ## Variant Synthesizer (the loop in `test_case`, lines 112-126)

For each `(key, value)` of the type table, in insertion (= parameter)
order:
* `isinstance(value, Random)`: `N = 1 << width`, and the parametrize
  argument is `[BitVector(random.randint(0, N - 1), width) for _ in
  range(num_tests)]`.  `random.randint(a, b)` (Python stdlib, external)
  returns a value in the inclusive range `[a, b]`; it is modelled by an
  oracle stream `rng : Nat → Nat` reduced into the range, consumed one
  entry per draw.
* otherwise (any non-`Random` value whatsoever): the argument is the
  single-element list `[{value}]`, `defn_globals[str(value)]` is set to
  `FaultSimulator(value, None)`, and `sim_object` is set to
  `str(value)` — overwriting any previous `sim_object`.

`str(value)` is modelled by `strOf` (a magma circuit prints as its
name; other values as their repr-like text).
-/

structure BitVector where
  value : Nat
  width : Nat
deriving DecidableEq, Repr

/-- Model of `random.randint(lo, hi)` (inclusive bounds), driven by one
oracle entry `r`. -/
def randint (r lo hi : Nat) : Nat := lo + r % (hi + 1 - lo)

/-- The sample list built for one `Random(width)` parameter, drawing
`numTests` entries of the oracle starting at index `start`. -/
def randomSamples (rng : Nat → Nat) (start w numTests : Nat) : List BitVector :=
  (List.range numTests).map (fun i => ⟨randint (rng (start + i)) 0 ((1 <<< w) - 1), w⟩)

def strOf : PyVal → String
  | .randomCls => "<class Random>"
  | .randomDesc w => "<fault.Random object " ++ toString w ++ ">"
  | .circuitV nm => nm
  | .natV n => toString n

def isRandom : PyVal → Bool
  | .randomDesc _ => true
  | _ => false

/-- One parametrize argument: the sample list of a `Random` parameter,
or the single-element list holding the circuit value. -/
inductive VariantArg where
  | bvList (l : List BitVector)
  | singleV (v : PyVal)
deriving DecidableEq, Repr

/-- The synthesizer's mutable state across the loop: the parametrize
markers appended so far, the `defn_globals` registrations of
`FaultSimulator` instances (binding name paired with the wrapped
value), the `sim_object` variable, and the oracle cursor. -/
structure SynthState where
  pmarks : List (String × VariantArg)
  globalsAdd : List (String × PyVal)
  simObject : Option String
  rngCtr : Nat
deriving DecidableEq, Repr

def processParam (rng : Nat → Nat) (numTests : Nat) (st : SynthState) :
    String × PyVal → SynthState
  | (key, .randomDesc w) =>
      { st with
        pmarks := st.pmarks ++ [(key, .bvList (randomSamples rng st.rngCtr w numTests))]
        rngCtr := st.rngCtr + numTests }
  | (key, v) =>
      { st with
        pmarks := st.pmarks ++ [(key, .singleV v)]
        globalsAdd := st.globalsAdd ++ [(strOf v, v)]
        simObject := some (strOf v) }

def processParams (rng : Nat → Nat) (numTests : Nat)
    (table : List (String × PyVal)) : SynthState :=
  table.foldl (processParam rng numTests) ⟨[], [], none, 0⟩

/-- The Synthesis Driver after type collection: run the synthesizer
loop over the table, then rewrite the body with the final `sim_object`.
If no parameter took the circuit branch, `sim_object` was never
assigned and line 128 raises `UnboundLocalError` (modelled `none`). -/
def test_case (rng : Nat → Nat) (numTests : Nat)
    (table : List (String × PyVal)) (body : List Stmt) :
    Option (SynthState × List Stmt) :=
  let st := processParams rng numTests table
  match st.simObject with
  | none => none
  | some sim => (rewriteBody sim body).map (fun b => (st, b))

/-! ## Subprocess execution utility (`fault/subprocess_run.py`)

`resolve_env` picks the environment: a caller-supplied `env` is
returned as-is; otherwise the base is `FaultConfig.env` (when
`use_fault_cfg`) or a copy of `os.environ`, updated with `add_to_env`
when given.  `FaultConfig.env` and `os.environ` are externals and enter
as parameters.  Environments are modelled as association lists with
unique keys (Python dicts); `dict.update` overrides existing keys and
appends new ones.

`subprocess_run` resolves the environment, runs the command, captures
the stdout/stderr lines and the return code (all externals, given as
inputs here), accumulates `err_msg` — non-zero return code when
`chk_ret_code`, then `err_str` found in stdout, then in stderr — and
either raises `AssertionError` after printing the captured display
lines and the numbered error messages, or returns a `CompletedProcess`.
With `disp_type='on_error'` nothing is printed on success; with
`'realtime'` the display lines are printed as they are produced.
-/

def EnvMap := List (String × String)
deriving DecidableEq, Repr

def updateEnv (base adds : EnvMap) : EnvMap :=
  (List.map (fun kv : String × String =>
      match List.lookup kv.1 adds with
      | some v => (kv.1, v)
      | none => kv) base)
  ++ List.filter (fun kv : String × String => (List.lookup kv.1 base).isNone) adds

def resolve_env (env : Option EnvMap) (use_fault_cfg : Bool)
    (add_to_env : Option EnvMap) (faultCfgEnv osEnviron : EnvMap) : EnvMap :=
  match env with
  | some e => e
  | none =>
      let base := if use_fault_cfg then faultCfgEnv else osEnviron
      match add_to_env with
      | some a => updateEnv base a
      | none => base

/-- Model of Python `str.rstrip()`: drop trailing whitespace. -/
def rstripS (s : String) : String :=
  ⟨(s.data.reverse.dropWhile Char.isWhitespace).reverse⟩

def leadsWith : List Char → List Char → Bool
  | [], _ => true
  | _ :: _, [] => false
  | a :: as, b :: bs => a = b && leadsWith as bs

def occursWithin (needle : List Char) : List Char → Bool
  | [] => leadsWith needle []
  | c :: cs => leadsWith needle (c :: cs) || occursWithin needle cs

/-- Model of Python `needle in hay` on strings: substring test. -/
def strContains (hay needle : String) : Bool :=
  occursWithin needle.data hay.data

def MAGENTA : String := "\x1b[35m"
def CYAN : String := "\x1b[36m"
def RED : String := "\x1b[31m"
def BRIGHT : String := "\x1b[1m"
def RESET_ALL : String := "\x1b[0m"

/-- Model of `shlex.quote` (Python stdlib, external): return the string
unchanged when it is nonempty and made only of safe characters,
otherwise single-quote it, escaping embedded single quotes. -/
def shlexQuote (s : String) : String :=
  if s = "" then "\x27\x27"
  else if s.data.all (fun c => c.isAlphanum ||
      c ∈ ['@', '%', '+', '=', ':', ',', '.', '/', '-', '_']) then s
  else "\x27" ++ (s.replace "\x27" "\x27\"\x27\"\x27") ++ "\x27"

def make_cmd_str (args : List String) : String :=
  String.intercalate " " (args.map shlexQuote)

/-- `PrintDisplay.process_output`: the lines printed for one stream —
an opening tag, each line rstripped, a closing tag — nothing when the
stream produced no line.  The captured value returned for further
processing is the concatenation of the raw lines. -/
def processOutputLines (nm : String) (lines : List String) : List String :=
  if lines.isEmpty then []
  else (MAGENTA ++ BRIGHT ++ "<" ++ nm ++ ">" ++ RESET_ALL)
    :: lines.map rstripS ++ [MAGENTA ++ BRIGHT ++ "</" ++ nm ++ ">" ++ RESET_ALL]

structure CompletedProcess where
  args : List String
  returncode : Int
  stdout : String
  stderr : String
deriving DecidableEq, Repr

/-- Outcome of `subprocess_run`: everything printed to the terminal,
the environment handed to `Popen`, and either the `AssertionError`
(carrying the accumulated `err_msg` list for inspection) or the
`CompletedProcess`. -/
structure RunResult where
  printed : List String
  usedEnv : EnvMap
  result : Except (List String) CompletedProcess

def errMsgList (chk_ret_code : Bool) (returncode : Int) (err_str : Option String)
    (stdout stderr : String) : List String :=
  (if chk_ret_code ∧ returncode ≠ 0
   then ["Got return code " ++ toString returncode ++ "."] else [])
  ++ (match err_str with
      | some s =>
          (if strContains stdout s then ["Found \"" ++ s ++ "\" in STDOUT."] else [])
          ++ (if strContains stderr s then ["Found \"" ++ s ++ "\" in STDERR."] else [])
      | none => [])

def subprocess_run (args : List String) (stdoutLines stderrLines : List String)
    (returncode : Int) (dispRealtime : Bool) (err_str : Option String)
    (chk_ret_code : Bool) (env : Option EnvMap) (use_fault_cfg : Bool)
    (add_to_env : Option EnvMap) (faultCfgEnv osEnviron : EnvMap) : RunResult :=
  let usedEnv := resolve_env env use_fault_cfg add_to_env faultCfgEnv osEnviron
  let cmdLine := CYAN ++ BRIGHT ++ "Running command: " ++ RESET_ALL ++ make_cmd_str args
  let displayLines := cmdLine :: (processOutputLines "STDOUT" stdoutLines
    ++ processOutputLines "STDERR" stderrLines)
  let stdout := String.join stdoutLines
  let stderr := String.join stderrLines
  let msgs := errMsgList chk_ret_code returncode err_str stdout stderr
  if msgs.isEmpty then
    { printed := if dispRealtime then displayLines else []
      usedEnv := usedEnv
      result := .ok ⟨args, returncode, stdout, stderr⟩ }
  else
    { printed := displayLines
        ++ (RED ++ BRIGHT ++ "Found " ++ toString msgs.length ++ " error(s):" ++ RESET_ALL)
        :: (((List.range msgs.length).zip msgs).map
            (fun ke => RED ++ BRIGHT ++ toString (ke.1 + 1) ++ ") " ++ ke.2 ++ RESET_ALL))
      usedEnv := usedEnv
      result := .error msgs }

/-! ## Helper lemmas -/

/-- Evaluating an emitted `get_value` call: one `get` on the simulator,
returning the oracle's value for the port. -/
theorem evalExpr_mkGetValue (σ : SimOracle) (env : String → Option Value)
    (sim a : String) (hsim : env sim = some .adapterV)
    (hsc : env "Scope" = some .scopeCls) :
    evalExpr σ env (mkGetValue sim a) = some (σ.get a, [.getV a]) := by
  simp [mkGetValue, evalExpr, evalArgs, getattrV, applyCall, hsim, hsc]

/-- Evaluating an emitted `set_value` call: the value expression's own
events, then exactly one `set` on the simulator. -/
theorem evalExpr_mkSetValue (σ : SimOracle) (env : String → Option Value)
    (sim f : String) (e : Expr) (v : Value) (ev : List Event)
    (hsim : env sim = some .adapterV) (hsc : env "Scope" = some .scopeCls)
    (he : evalExpr σ env e = some (v, ev)) :
    evalExpr σ env (mkSetValue sim f e) = some (.noneV, ev ++ [.setV f v]) := by
  simp [mkSetValue, evalExpr, evalArgs, getattrV, applyCall, hsim, hsc, he]

/-- A statement whose rewrite fails makes the whole body rewrite fail:
no partial body is produced. -/
theorem rewriteBody_none_of_mem (sim : String) (s : Stmt)
    (hs : rewriteStmt sim s = none) :
    ∀ pre post : List Stmt, rewriteBody sim (pre ++ s :: post) = none := by
  intro pre post
  induction pre with
  | nil => simp [rewriteBody, hs]
  | cons p ps ih =>
      simp only [List.cons_append, rewriteBody]
      cases rewriteStmt sim p <;> simp [ih]

/-- A shared concrete environment for the witnesses: the adapter is
registered under `"sim"`, the `Scope` constructor under `"Scope"`, and
the circuit-typed test parameter `"c"` is bound to the adapter. -/
def demoEnv : String → Option Value := fun s =>
  if s = "sim" then some .adapterV
  else if s = "Scope" then some .scopeCls
  else if s = "c" then some .adapterV
  else none

/-- A shared concrete simulator oracle for the witnesses. -/
def demoOracle : SimOracle := ⟨fun _ => .intV 7⟩

/-! ## C1 — attribute assignment -/

/-- C1 counterexample: for `c.I = c.O` the rewriter emits
`sim.set_value('I', c.O, Scope())` with the value argument `c.O`
verbatim — `visit_Assign` never visits its children, so the nested
attribute read is NOT rewritten into an adapter get call, contrary to
the claimed innermost-first rewriting of the assigned expression. -/
theorem c1_value_emitted_verbatim_cex :
    rewriteStmt "sim"
        (.assign [.attributeE (.name "c") "I"] (.attributeE (.name "c") "O"))
      = some (.exprS (.call (.attributeE (.name "sim") "set_value")
          [.strE "I", .attributeE (.name "c") "O", .call (.name "Scope") []]))
    ∧ (Expr.attributeE (.name "c") "O") ≠ mkGetValue "sim" "O" := by
  refine ⟨rfl, ?_⟩
  simp [mkGetValue]

/-- C1 (amended): `target.field = expr` is rewritten into the single
call `sim_object.set_value("field", expr, Scope())` with `expr` emitted
verbatim (not rewritten); at runtime, when `expr` evaluates to a value
`v` without touching the simulator, the adapter's set operation is
invoked exactly once, with `v` and the port name `"field"`. -/
theorem c1_assign_set_once (sim f : String) (obj e : Expr) (rest : List Expr)
    (σ : SimOracle) (env : String → Option Value) (v : Value)
    (hsim : env sim = some .adapterV) (hsc : env "Scope" = some .scopeCls)
    (he : evalExpr σ env e = some (v, [])) :
    rewriteStmt sim (.assign (.attributeE obj f :: rest) e)
      = some (.exprS (mkSetValue sim f e))
    ∧ execStmt σ env (.exprS (mkSetValue sim f e)) = some [.setV f v]
    ∧ [Event.setV f v].count (.setV f v) = 1 := by
  refine ⟨rfl, ?_, by simp⟩
  have h := evalExpr_mkSetValue σ env sim f e v [] hsim hsc he
  simp [execStmt, h]

/-- C1 witness: `c.I = 5` at the shared environment and oracle. -/
theorem c1_assign_set_once_witness :
    rewriteStmt "sim" (.assign (.attributeE (.name "c") "I" :: []) (.num 5))
      = some (.exprS (mkSetValue "sim" "I" (.num 5)))
    ∧ execStmt demoOracle demoEnv (.exprS (mkSetValue "sim" "I" (.num 5)))
      = some [.setV "I" (.intV 5)]
    ∧ [Event.setV "I" (.intV 5)].count (.setV "I" (.intV 5)) = 1 :=
  c1_assign_set_once "sim" "I" (.name "c") (.num 5) [] demoOracle demoEnv
    (.intV 5) (by simp [demoEnv]) (by simp [demoEnv]) (by simp [evalExpr])

/-! ## C2 — attribute read -/

/-- C2 counterexample: the attribute read `c.O` occurring in the body
`[c.X = c.O]` is NOT replaced — `visit_Assign` intercepts the
assignment before its children are visited, so the read survives
verbatim inside the emitted `set_value` call.  The universal claim
"every `obj.field` expression in the body is replaced" is false. -/
theorem c2_read_in_assign_value_not_replaced_cex :
    rewriteBody "sim"
        [.assign [.attributeE (.name "c") "X"] (.attributeE (.name "c") "O")]
      = some [.exprS (.call (.attributeE (.name "sim") "set_value")
          [.strE "X", .attributeE (.name "c") "O", .call (.name "Scope") []])]
    ∧ (Expr.attributeE (.name "c") "O") ≠ mkGetValue "sim" "O" := by
  refine ⟨rfl, ?_⟩
  simp [mkGetValue]

/-- C2 (amended): an attribute read `obj.field`, `field ≠ "eval"`,
reached by the rewriter's traversal (it is not nested inside an
assignment's value, where it survives verbatim) is replaced in place by
`sim_object.get_value("field", Scope())`; executed against an adapter
whose get for that port returns `V`, the replacement yields exactly the
value `V` — the same result as substituting `V` directly — via a single
get call. -/
theorem c2_read_rewrite_equiv (sim f : String) (obj : Expr) (σ : SimOracle)
    (env : String → Option Value) (V : Value)
    (hf : f ≠ "eval") (hsim : env sim = some .adapterV)
    (hsc : env "Scope" = some .scopeCls) (hV : σ.get f = V) :
    rewriteExpr sim (.attributeE obj f) = mkGetValue sim f
    ∧ evalExpr σ env (rewriteExpr sim (.attributeE obj f)) = some (V, [.getV f]) := by
  have hr : rewriteExpr sim (.attributeE obj f) = mkGetValue sim f := by
    simp [rewriteExpr, hf]
  refine ⟨hr, ?_⟩
  rw [hr, evalExpr_mkGetValue σ env sim f hsim hsc, hV]

/-- C2 witness: `c.O` at the shared environment and oracle. -/
theorem c2_read_rewrite_equiv_witness :
    rewriteExpr "sim" (.attributeE (.name "c") "O") = mkGetValue "sim" "O"
    ∧ evalExpr demoOracle demoEnv (rewriteExpr "sim" (.attributeE (.name "c") "O"))
      = some (.intV 7, [.getV "O"]) :=
  c2_read_rewrite_equiv "sim" "O" (.name "c") demoOracle demoEnv (.intV 7)
    (by simp) (by simp [demoEnv]) (by simp [demoEnv]) rfl

/-! ## C3 — eval redirection -/

/-- C3: a body statement `obj.eval()` is rewritten to `obj.evaluate()`
(call-site position preserved, object untouched); executed with `obj`
bound to the adapter it performs exactly one `evaluate` call on the
simulator and no get or set call at all — in particular none for a
port literally named `"eval"`. -/
theorem c3_eval_redirect (sim : String) (obj : Expr) (σ : SimOracle)
    (env : String → Option Value)
    (hobj : evalExpr σ env obj = some (.adapterV, [])) :
    rewriteStmt sim (.exprS (.call (.attributeE obj "eval") []))
      = some (.exprS (.call (.attributeE obj "evaluate") []))
    ∧ execStmt σ env (.exprS (.call (.attributeE obj "evaluate") []))
      = some [.evalE]
    ∧ [Event.evalE].count .evalE = 1
    ∧ (∀ v, Event.getV "eval" ∉ [Event.evalE] ∧ Event.setV "eval" v ∉ [Event.evalE]) := by
  refine ⟨by simp [rewriteStmt, rewriteExpr, rewriteExprList], ?_, by simp, by simp⟩
  simp [execStmt, evalExpr, evalArgs, getattrV, applyCall, hobj]

/-- C3 witness: `c.eval()` with `c` bound to the adapter. -/
theorem c3_eval_redirect_witness :
    rewriteStmt "sim" (.exprS (.call (.attributeE (.name "c") "eval") []))
      = some (.exprS (.call (.attributeE (.name "c") "evaluate") []))
    ∧ execStmt demoOracle demoEnv
        (.exprS (.call (.attributeE (.name "c") "evaluate") []))
      = some [.evalE]
    ∧ [Event.evalE].count .evalE = 1
    ∧ (∀ v, Event.getV "eval" ∉ [Event.evalE] ∧ Event.setV "eval" v ∉ [Event.evalE]) :=
  c3_eval_redirect "sim" (.name "c") demoOracle demoEnv (by simp [evalExpr, demoEnv])

/-! ## C4 — random sampling bounds -/

/-- A shared concrete initial synthesizer state for witnesses. -/
def demoState : SynthState := ⟨[], [], none, 0⟩

/-- C4: a `Random(width)` parameter contributes a parametrize marker
holding exactly `num_tests` samples, each a width-`width` bit-vector
whose value lies in `[0, 2^width)` (`random.randint(0, N - 1)` with
`N = 1 << width` is inclusive on both ends). -/
theorem c4_random_sampling_bounds (rng : Nat → Nat) (numTests w : Nat)
    (st : SynthState) (key : String) (hw : 0 < w) :
    (processParam rng numTests st (key, .randomDesc w)).pmarks
      = st.pmarks ++ [(key, .bvList (randomSamples rng st.rngCtr w numTests))]
    ∧ (randomSamples rng st.rngCtr w numTests).length = numTests
    ∧ ∀ bv ∈ randomSamples rng st.rngCtr w numTests, bv.value < 2 ^ w := by
  refine ⟨by simp [processParam], by simp [randomSamples], ?_⟩
  intro bv hbv
  simp only [randomSamples, List.mem_map, List.mem_range] at hbv
  obtain ⟨i, _, rfl⟩ := hbv
  have h1 : 0 < 2 ^ w := Nat.pos_pow_of_pos w (by norm_num)
  have h2 : (1 <<< w) - 1 + 1 - 0 = 2 ^ w := by
    rw [Nat.shiftLeft_eq, one_mul, Nat.sub_zero, Nat.sub_add_cancel h1]
  simp only [randint, h2, Nat.zero_add]
  exact Nat.mod_lt _ h1

/-- C4 witness: `Random(3)` with two tests. -/
theorem c4_random_sampling_bounds_witness :
    0 < 3
    ∧ ((processParam (fun i => i + 5) 2 demoState ("x", .randomDesc 3)).pmarks
        = demoState.pmarks
          ++ [("x", .bvList (randomSamples (fun i => i + 5) demoState.rngCtr 3 2))]
      ∧ (randomSamples (fun i => i + 5) demoState.rngCtr 3 2).length = 2
      ∧ ∀ bv ∈ randomSamples (fun i => i + 5) demoState.rngCtr 3 2,
          bv.value < 2 ^ 3) :=
  ⟨by decide, c4_random_sampling_bounds (fun i => i + 5) 2 3 demoState "x" (by decide)⟩

/-! ## C5 — no UnsupportedTypeError -/

/-- C5 counterexample: a resolved descriptor that is neither `Random`
nor a circuit (here the plain integer `5`) does not abort synthesis:
the `else` branch treats it exactly like a circuit handle — a
`FaultSimulator` wrapping it is registered under `str(value)`, the
parametrize list is `[value]`, `sim_object` becomes `"5"` and the whole
synthesis succeeds.  No `UnsupportedTypeError` exists in the code. -/
theorem c5_no_unsupported_type_error_cex :
    processParams (fun _ => 0) 16 [("x", .natV 5)]
      = ⟨[("x", .singleV (.natV 5))], [("5", .natV 5)], some "5", 0⟩
    ∧ test_case (fun _ => 0) 16 [("x", .natV 5)] []
      = some (⟨[("x", .singleV (.natV 5))], [("5", .natV 5)], some "5", 0⟩, []) :=
  ⟨rfl, rfl⟩

/-- C5 (amended): every descriptor that is not a `Random` instance —
circuit or not — is handled by the circuit branch: its parametrize
list is the single-element `[value]`, a `FaultSimulator` wrapping it is
registered under `str(value)`, and `sim_object` is set to `str(value)`.
Synthesis is never aborted on an unsupported descriptor. -/
theorem c5_nonrandom_treated_as_circuit (rng : Nat → Nat) (numTests : Nat)
    (st : SynthState) (key : String) (v : PyVal) (hv : isRandom v = false) :
    processParam rng numTests st (key, v)
      = { st with
          pmarks := st.pmarks ++ [(key, .singleV v)]
          globalsAdd := st.globalsAdd ++ [(strOf v, v)]
          simObject := some (strOf v) } := by
  cases v <;> first | rfl | simp [isRandom] at hv

/-- C5 witness: the integer descriptor `5`. -/
theorem c5_nonrandom_treated_as_circuit_witness :
    processParams (fun _ => 0) 16 [("y", .natV 5)]
      = { demoState with
          pmarks := demoState.pmarks ++ [("y", .singleV (.natV 5))]
          globalsAdd := demoState.globalsAdd ++ [("5", .natV 5)]
          simObject := some "5" } :=
  c5_nonrandom_treated_as_circuit (fun _ => 0) 16 demoState "y" (.natV 5) rfl

/-! ## C6 — annotation evaluation failure -/

/-- C6 counterexample: the undefined name `Foo` as annotation of a
parameter named `x` and of one named `y` produce the *same* raw
`NameError` — the propagated failure is not a `ResolutionError` and
identifies neither the parameter's name nor its annotation source
text (nothing distinguishes the two parameters in the error). -/
theorem c6_error_lacks_param_name_cex :
    collect_types (fun _ => none) [("x", .nameRef "Foo")]
      = .error (.nameError "Foo")
    ∧ collect_types (fun _ => none) [("y", .nameRef "Foo")]
      = .error (.nameError "Foo") :=
  ⟨rfl, rfl⟩

/-- C6 (amended): a failing annotation evaluation aborts
`collect_types` and propagates the underlying evaluation exception
as-is — unwrapped, carrying no parameter name. -/
theorem c6_raw_error_propagation (env : String → Option PyVal) (k : String)
    (a : Annot) (rest : List (String × Annot)) (e : PyErr)
    (ha : evalAnnot env a = .error e) :
    collect_types env ((k, a) :: rest) = .error e := by
  simp [collect_types, ha, Bind.bind, Except.bind]

/-- C6 witness: `x : Foo` (undefined) followed by a well-formed
parameter. -/
theorem c6_raw_error_propagation_witness :
    collect_types (fun _ => none) [("x", .nameRef "Foo"), ("z", .numA 1)]
      = .error (.nameError "Foo") :=
  c6_raw_error_propagation (fun _ => none) "x" (.nameRef "Foo")
    [("z", .numA 1)] (.nameError "Foo") rfl

/-! ## C7 — multi-target and destructuring assignment -/

/-- C7 counterexample: the two-target assignment `a.x = b.y = 5` is
rewritten *successfully* — no `UnsupportedStatementError`, no failure
of any kind: the first target is honored and the second is silently
dropped. -/
theorem c7_multi_target_no_failure_cex :
    rewriteStmt "sim"
        (.assign [.attributeE (.name "a") "x", .attributeE (.name "b") "y"]
          (.num 5))
      = some (.exprS (mkSetValue "sim" "x" (.num 5))) :=
  rfl

/-- C7 (amended): only the first assignment target is honored —
extra targets are silently dropped, with no error.  An assignment
whose first target is not an attribute access (a bare name, or a
destructuring pattern) fails with a raw attribute error (`targets[0]`
has no `.attr`), not with a dedicated `UnsupportedStatementError`; and
when any statement's rewrite fails, the body rewrite as a whole fails,
so no partial rewrite is emitted. -/
theorem c7_first_target_only (sim x f : String) (t e : Expr)
    (rest : List Expr) (pre post : List Stmt) (s : Stmt)
    (hs : rewriteStmt sim s = none) :
    rewriteStmt sim (.assign (.attributeE t f :: rest) e)
      = some (.exprS (mkSetValue sim f e))
    ∧ rewriteStmt sim (.assign (.name x :: rest) e) = none
    ∧ rewriteBody sim (pre ++ s :: post) = none :=
  ⟨rfl, rfl, rewriteBody_none_of_mem sim s hs pre post⟩

/-- C7 witness: first target honored for `c.I = 2`, failure for a
bare-name target, and failure of a body containing one. -/
theorem c7_first_target_only_witness :
    rewriteStmt "sim" (.assign (.attributeE (.name "c") "I" :: []) (.num 2))
      = some (.exprS (mkSetValue "sim" "I" (.num 2)))
    ∧ rewriteStmt "sim" (.assign (.name "z" :: []) (.num 2)) = none
    ∧ rewriteBody "sim"
        ([.exprS (.num 1)] ++ .assign [.name "q"] (.num 3) :: []) = none :=
  c7_first_target_only "sim" "z" "I" (.name "c") (.num 2) []
    [.exprS (.num 1)] [] (.assign [.name "q"] (.num 3)) rfl

/-! ## C8 — single adapter binding, last one wins -/

/-- The `sim_object` name the synthesizer loop ends with: the string
representation of the value of the last parameter that took the
circuit (non-`Random`) branch, if any.  The binding variable is a
single `Option String` throughout — at most one adapter binding is
current at any time. -/
def lastAdapterName : List (String × PyVal) → Option String
  | [] => none
  | kv :: rest =>
      match lastAdapterName rest with
      | some s => some s
      | none => if isRandom kv.2 then none else some (strOf kv.2)

theorem foldl_simObject_eq (rng : Nat → Nat) (numTests : Nat) :
    ∀ (table : List (String × PyVal)) (st : SynthState),
      (List.foldl (processParam rng numTests) st table).simObject
        = (lastAdapterName table).elim st.simObject some := by
  intro table
  induction table with
  | nil => intro st; rfl
  | cons kv rest ih =>
      intro st
      obtain ⟨k, v⟩ := kv
      rw [List.foldl_cons, ih]
      cases h : lastAdapterName rest with
      | some s => simp [lastAdapterName, h]
      | none => cases v <;> simp [lastAdapterName, h, processParam, isRandom]

/-- C8: the synthesizer tracks a single adapter binding; after the
parameter loop `sim_object` is the binding derived from the *last*
circuit-typed (non-`Random`) parameter processed, earlier bindings
being overwritten — and `test_case` hands exactly that binding to the
Body Rewriter (`CoreIRSimulatorRewrite(sim_object)`). -/
theorem c8_last_binding_wins (rng : Nat → Nat) (numTests : Nat)
    (table : List (String × PyVal)) (body : List Stmt) :
    (processParams rng numTests table).simObject = lastAdapterName table
    ∧ test_case rng numTests table body
      = (match lastAdapterName table with
         | none => none
         | some sim =>
             (rewriteBody sim body).map
               (fun b => (processParams rng numTests table, b))) := by
  have h : (processParams rng numTests table).simObject = lastAdapterName table := by
    rw [processParams, foldl_simObject_eq]
    cases lastAdapterName table <;> rfl
  refine ⟨h, ?_⟩
  rw [test_case, h]

/-! ## C9 — subprocess_run raise condition -/

theorem errMsgList_eq_nil_iff (chk : Bool) (rc : Int) (es : Option String)
    (out er : String) :
    errMsgList chk rc es out er = []
      ↔ ¬((chk = true ∧ rc ≠ 0)
          ∨ ∃ s, es = some s
              ∧ (strContains out s = true ∨ strContains er s = true)) := by
  cases es with
  | none =>
      cases chk <;> by_cases hrc : rc = 0 <;> simp [errMsgList, hrc]
  | some s =>
      cases chk <;> by_cases hrc : rc = 0 <;>
        cases ho : strContains out s <;> cases he' : strContains er s <;>
          simp [errMsgList, hrc, ho, he']

/-- C9: `subprocess_run` raises an `AssertionError` exactly when the
return code is non-zero with `chk_ret_code` enabled, or the configured
`err_str` occurs in the captured stdout or stderr; on a raise, the
captured display output (command line, stdout, stderr) is printed
first, followed by the error list; otherwise it returns a
`CompletedProcess` carrying the captured stdout, the captured stderr
and the return code. -/
theorem c9_subprocess_raise_iff (args sol sel : List String) (rc : Int)
    (rt : Bool) (es : Option String) (chk : Bool) (envO : Option EnvMap)
    (ucfg : Bool) (add : Option EnvMap) (cfg os : EnvMap) :
    ((∃ m, (subprocess_run args sol sel rc rt es chk envO ucfg add cfg os).result
        = .error m)
      ↔ ((chk = true ∧ rc ≠ 0)
          ∨ ∃ s, es = some s
              ∧ (strContains (String.join sol) s = true
                 ∨ strContains (String.join sel) s = true)))
    ∧ (((subprocess_run args sol sel rc rt es chk envO ucfg add cfg os).result
          = .error (errMsgList chk rc es (String.join sol) (String.join sel))
        ∧ ((CYAN ++ BRIGHT ++ "Running command: " ++ RESET_ALL ++ make_cmd_str args)
            :: (processOutputLines "STDOUT" sol ++ processOutputLines "STDERR" sel))
          <+: (subprocess_run args sol sel rc rt es chk envO ucfg add cfg os).printed)
       ∨ ((subprocess_run args sol sel rc rt es chk envO ucfg add cfg os).result
            = .ok ⟨args, rc, String.join sol, String.join sel⟩
          ∧ errMsgList chk rc es (String.join sol) (String.join sel) = [])) := by
  by_cases hm : errMsgList chk rc es (String.join sol) (String.join sel) = []
  · constructor
    · have hiff := (errMsgList_eq_nil_iff chk rc es (String.join sol) (String.join sel)).mp hm
      constructor
      · intro hex
        obtain ⟨m, hr⟩ := hex
        simp [subprocess_run, hm] at hr
      · intro hc
        exact absurd hc hiff
    · right
      refine ⟨?_, hm⟩
      simp [subprocess_run, hm]
  · constructor
    · have hiff := errMsgList_eq_nil_iff chk rc es (String.join sol) (String.join sel)
      constructor
      · intro _
        by_contra hc
        exact hm (hiff.mpr hc)
      · intro _
        refine ⟨errMsgList chk rc es (String.join sol) (String.join sel), ?_⟩
        simp [subprocess_run, hm]
    · left
      constructor
      · simp [subprocess_run, hm]
      · simp only [subprocess_run, List.isEmpty_eq_true, hm, if_false]
        exact ⟨_, rfl⟩

/-- C9 witness: a clean run (return code 0, no error string) returns
the captured output; a failing run (return code 1) raises. -/
theorem c9_subprocess_raise_iff_witness :
    ((∃ m, (subprocess_run ["ls"] ["ok"] [] 0 false none true none true none [] []).result
        = .error m)
      ↔ ((true = true ∧ (0 : Int) ≠ 0)
          ∨ ∃ s, (none : Option String) = some s
              ∧ (strContains (String.join ["ok"]) s = true
                 ∨ strContains (String.join []) s = true)))
    ∧ (((subprocess_run ["ls"] ["ok"] [] 0 false none true none true none [] []).result
          = .error (errMsgList true 0 none (String.join ["ok"]) (String.join []))
        ∧ ((CYAN ++ BRIGHT ++ "Running command: " ++ RESET_ALL ++ make_cmd_str ["ls"])
            :: (processOutputLines "STDOUT" ["ok"] ++ processOutputLines "STDERR" []))
          <+: (subprocess_run ["ls"] ["ok"] [] 0 false none true none true none [] []).printed)
       ∨ ((subprocess_run ["ls"] ["ok"] [] 0 false none true none true none [] []).result
            = .ok ⟨["ls"], 0, String.join ["ok"], String.join []⟩
          ∧ errMsgList true 0 none (String.join ["ok"]) (String.join []) = [])) :=
  c9_subprocess_raise_iff ["ls"] ["ok"] [] 0 false none true none true none [] []

/-! ## C10 — explicit env wins -/

/-- C10: when a caller supplies an explicit environment mapping,
`resolve_env` returns exactly that mapping — `use_fault_cfg` has no
effect and `add_to_env` is silently ignored — and `subprocess_run`
(and `subprocess_run_batch`, which resolves through the same
`resolve_env` before delegating) hands exactly that mapping to the
subprocess. -/
theorem c10_explicit_env_passthrough (e : EnvMap) (ucfg : Bool)
    (add : Option EnvMap) (cfg os : EnvMap) (args sol sel : List String)
    (rc : Int) (rt : Bool) (es : Option String) (chk : Bool) :
    resolve_env (some e) ucfg add cfg os = e
    ∧ (subprocess_run args sol sel rc rt es chk (some e) ucfg add cfg os).usedEnv
      = e := by
  refine ⟨rfl, ?_⟩
  simp only [subprocess_run]
  split <;> rfl
